import Mathlib

/-!
Verification development for the mycode-analyzer backend (Node/Express).

Shallow embedding conventions:
* JS numbers that the program uses as integer counts/percentages are modelled
  as `Int`/`Nat`; `Math.round(a/b)` over non-negative denominators is modelled
  exactly over the rationals as `jsRoundDiv` (floor of `a/b + 1/2`, computed in
  integer arithmetic), which is JS round-half-up semantics.
* JS objects returned by `analyzeLogicFile` have exactly three shapes
  (skipped / failed / ok with parsed model payload); they are modelled by the
  inductive `AnalysisResult`, and the optional payload fields the code guards
  with `&& Array.isArray(...)` / `typeof ... === 'number'` become `Option`s.
* The external OpenAI call is an oracle parameter (`Model`); a thrown error is
  `Except.error` with the error message, mirroring the `try/catch` blocks.
* JS strings are Lean `String`s; `toLowerCase`/`includes` are modelled on the
  character list (ASCII case mapping, which agrees with JS on ASCII input).
* `Array.prototype.sort` is modelled as a stable sort on the comparator, per
  the ES2019 stability requirement.
-/

/-- JS `Math.round(a / b)` computed exactly: floor(a/b + 1/2) for `b > 0`,
and 0 for `b ≤ 0` (the code only divides by positive counts). -/
def jsRoundDiv (a b : Int) : Int :=
  if b ≤ 0 then 0 else Int.fdiv (2 * a + b) (2 * b)

/-- Fuel-structural floor-log2 for naturals (the library `Nat.log2` is
defined by well-founded recursion and does not kernel-reduce; fuel `n`
suffices since the argument halves each step). -/
def natLog2F : Nat → Nat → Nat
  | 0, _ => 0
  | fuel + 1, n => if n ≤ 1 then 0 else natLog2F fuel (n / 2) + 1

/-- Floor of log2 of a positive natural (0 for 0 and 1). -/
def natLog2 (n : Nat) : Nat := natLog2F n n

/-- Round-to-nearest, ties-to-even integer of `p / q` for naturals with
`q > 0`. -/
def rneDiv (p q : Nat) : Nat :=
  let d := p / q
  let r := p % q
  if 2 * r < q then d
  else if q < 2 * r then d + 1
  else if d % 2 = 0 then d else d + 1

/-- Floor of log2 of `a / b` for positive naturals. -/
def ratFloorLog2 (a b : Nat) : Int :=
  let e0 : Int := (natLog2 a : Int) - (natLog2 b : Int)
  if 0 ≤ e0 then
    if b * 2 ^ e0.toNat ≤ a then e0 else e0 - 1
  else
    if b ≤ a * 2 ^ (-e0).toNat then e0 else e0 - 1

/-- Exact value `(significand, exponent)` meaning `s · 2^G` of the IEEE-754
binary64 (round-to-nearest-even) result of dividing `a` by `b`, the way a JS
`/` computes it; subnormal granularity `2^-1074` is respected and overflow is
ignored (the modelled quotients lie in `[0, 1]`). -/
def divB64 (a b : Nat) : Nat × Int :=
  if a = 0 ∨ b = 0 then (0, 0)
  else
    let e := ratFloorLog2 a b
    let G : Int := max (e - 52) (-1074)
    if 0 ≤ G then (rneDiv a (b * 2 ^ G.toNat), G)
    else (rneDiv (a * 2 ^ (-G).toNat) b, G)

/-- The binary64 result of multiplying the exact double value `s · 2^G` by
100: scale exactly, then round back to 53 significant bits. -/
def b64Times100 (v : Nat × Int) : Nat × Int :=
  let m := 100 * v.1
  if m = 0 then (0, 0)
  else
    let e : Int := (natLog2 m : Int) + v.2
    let G2 : Int := max (e - 52) (-1074)
    if G2 ≤ v.2 then (m * 2 ^ (v.2 - G2).toNat, G2)
    else (rneDiv m (2 ^ (G2 - v.2).toNat), G2)

/-- JS `Math.round` (nearest integer, halfway cases toward positive
infinity) of the exact non-negative double value `s · 2^G`. -/
def jsMathRound (v : Nat × Int) : Nat :=
  if 0 ≤ v.2 then v.1 * 2 ^ v.2.toNat
  else
    let t := (-v.2).toNat
    (2 * v.1 + 2 ^ t) / 2 ^ (t + 1)

/-- `Math.round((implementedCount / totalCount) * 100)` evaluated the way JS
evaluates it: two correctly rounded binary64 operations (the division and
the multiplication by 100), then the exact nearest-integer-half-up; e.g.
`(23/40)*100` is the double `57.49999999999999...`, so the result is 57
where exact rational rounding would give 58.  Returns 0 when
`totalCount = 0` (the caller guards that case). -/
def jsCountCoverage (implementedCount totalCount : Nat) : Int :=
  (jsMathRound (b64Times100 (divB64 implementedCount totalCount)) : Int)

/-- ASCII model of JS `String.prototype.toLowerCase`. -/
def jsToLower (s : String) : String :=
  String.mk (s.toList.map Char.toLower)

/-- `sub` is a prefix of `s` (character lists). -/
def listStartsWith : List Char → List Char → Bool
  | _, [] => true
  | [], _ :: _ => false
  | c :: t, d :: u => c = d && listStartsWith t u

/-- `sub` occurs as a contiguous substring of `s` (character lists). -/
def listIncludes : List Char → List Char → Bool
  | [], sub => sub.isEmpty
  | c :: t, sub => listStartsWith (c :: t) sub || listIncludes t sub

/-- Model of JS `s.includes(sub)`. -/
def strIncludes (s sub : String) : Bool :=
  listIncludes s.toList sub.toList

/-- Criticality values used by `missingNegativeTestCases` entries. -/
inductive Criticality where
  | High
  | Medium
  | Low
deriving DecidableEq

/-- The `criticalityOrder` lookup table in `extractCriticalTestCases`. -/
def criticalityOrder : Criticality → Nat
  | .High => 0
  | .Medium => 1
  | .Low => 2

/-- A missing-negative-test-case entry as produced by the per-file analysis. -/
structure TestCaseIn where
  description : String
  criticality : Criticality
  impact : String
deriving DecidableEq

/-- A test-case entry after `extractCriticalTestCases` tags it with the
origin file name (`{...testCase, fileName}`). -/
structure TestCaseTagged where
  description : String
  criticality : Criticality
  impact : String
  fileName : String
deriving DecidableEq

/-- The parsed JSON payload of a successful per-file model call
(`logicAnalyzer.js`, `analyzeLogicFile`).  Fields the aggregation code guards
for presence are `Option`s. -/
structure AnalysisPayload where
  summary : String := ""
  expectedFunctionalities : Option (List String) := none
  actualFunctionalities : Option (List String) := none
  missingCoreFunctionalities : Option (List String) := none
  missingNegativeTestCases : Option (List TestCaseIn) := none
  missingTestCases : Option (List TestCaseIn) := none
  coveragePercentage : Option Int := none
deriving DecidableEq, Inhabited

/-- The three object shapes returned by `analyzeLogicFile`:
`{success:false, fileName, skipped:true, reason}`,
`{success:false, fileName, error}`, and `{success:true, fileName, ...payload}`. -/
inductive AnalysisResult where
  | skippedFile (fileName : String) (reason : String)
  | failedFile (fileName : String) (error : String)
  | okFile (fileName : String) (payload : AnalysisPayload)
deriving DecidableEq, Inhabited

/-- The `success` flag of an analysis result. -/
def AnalysisResult.success : AnalysisResult → Bool
  | .okFile _ _ => true
  | _ => false

/-- The `skipped` flag of an analysis result (only exclusion-skipped files
carry it). -/
def AnalysisResult.skipped : AnalysisResult → Bool
  | .skippedFile _ _ => true
  | _ => false

/-- The `fileName` field of an analysis result. -/
def AnalysisResult.fileName : AnalysisResult → String
  | .skippedFile n _ => n
  | .failedFile n _ => n
  | .okFile n _ => n

/-- The `summary` field (present only on successful analyses). -/
def AnalysisResult.summary : AnalysisResult → Option String
  | .okFile _ p => some p.summary
  | _ => none

/-- The `expectedFunctionalities` field (present only on successful analyses). -/
def AnalysisResult.expectedFunctionalities : AnalysisResult → Option (List String)
  | .okFile _ p => p.expectedFunctionalities
  | _ => none

/-- The `actualFunctionalities` field (present only on successful analyses). -/
def AnalysisResult.actualFunctionalities : AnalysisResult → Option (List String)
  | .okFile _ p => p.actualFunctionalities
  | _ => none

/-- The `missingCoreFunctionalities` field. -/
def AnalysisResult.missingCoreFunctionalities : AnalysisResult → Option (List String)
  | .okFile _ p => p.missingCoreFunctionalities
  | _ => none

/-- The `missingNegativeTestCases` field. -/
def AnalysisResult.missingNegativeTestCases : AnalysisResult → Option (List TestCaseIn)
  | .okFile _ p => p.missingNegativeTestCases
  | _ => none

/-- The legacy `missingTestCases` field. -/
def AnalysisResult.missingTestCases : AnalysisResult → Option (List TestCaseIn)
  | .okFile _ p => p.missingTestCases
  | _ => none

/-- The numeric `coveragePercentage` field (`typeof r.coveragePercentage ===
'number'` becomes `Option.isSome`). -/
def AnalysisResult.coveragePercentage : AnalysisResult → Option Int
  | .okFile _ p => p.coveragePercentage
  | _ => none

/-- The external model call: content and file name to a parsed payload, or a
thrown error message. -/
def Model := String → String → Except String AnalysisPayload

/-- The exclusion heuristic at the top of `analyzeLogicFile` (lines 18-21). -/
def isErrorHandlingFile (fileContent fileName : String) : Bool :=
  strIncludes (jsToLower fileName) "error" ||
  strIncludes (jsToLower fileName) "exception" ||
  strIncludes (jsToLower fileContent) "error page" ||
  strIncludes (jsToLower fileContent) "exception page"

/-- `analyzeLogicFile(fileContent, fileName)` (`logicAnalyzer.js` 16-90):
skip excluded files without calling the model; otherwise call the model and
catch failures as `{success:false, fileName, error: error.message || ...}`. -/
def analyzeLogicFile (model : Model) (fileContent fileName : String) : AnalysisResult :=
  if isErrorHandlingFile fileContent fileName then
    .skippedFile fileName "Error handling file excluded from core functionality analysis"
  else
    match model fileContent fileName with
    | .ok payload => .okFile fileName payload
    | .error e => .failedFile fileName (if e = "" then "Failed to analyze logic file" else e)

/-- One row of the functionality comparison table. -/
structure ComparisonEntry where
  functionality : String
  implemented : Bool
  implementationStatus : String
  implementedIn : List String
deriving DecidableEq, Inhabited

/-- The value returned by `generateFunctionalityComparison`. -/
structure FunctionalityData where
  comparisonTable : List ComparisonEntry
  missingCoreFunctionalities : List String
  overallCoveragePercentage : Int
deriving DecidableEq, Inhabited

/-- Append `x` unless already present: one step of JS `Set.add` insertion-order
semantics (also of the `includes`/`push` dedup loop). -/
def insertUnique (acc : List String) (x : String) : List String :=
  if acc.contains x then acc else acc ++ [x]

/-- First-seen-order deduplication, as `Array.from(new Set(...))` and the
`includes`/`push` loop produce. -/
def dedupFirst (l : List String) : List String :=
  l.foldl insertUnique []

/-- `generateFunctionalityComparison(analysisResults)` (`logicAnalyzer.js`
194-284). -/
def generateFunctionalityComparison (analysisResults : List AnalysisResult) : FunctionalityData :=
  let successfulAnalyses := analysisResults.filter (·.success)
  if successfulAnalyses.isEmpty then
    { comparisonTable := [], missingCoreFunctionalities := [], overallCoveragePercentage := 0 }
  else
    let allExpectedFunctionalities :=
      dedupFirst (successfulAnalyses.flatMap (fun r => r.expectedFunctionalities.getD []))
    let missingCore :=
      dedupFirst (successfulAnalyses.flatMap (fun r => r.missingCoreFunctionalities.getD []))
    let comparisonTable := allExpectedFunctionalities.map (fun functionality =>
      let implementingFiles :=
        successfulAnalyses.filter (fun r => (r.actualFunctionalities.getD []).contains functionality)
      { functionality := functionality,
        implemented := !implementingFiles.isEmpty,
        implementationStatus := if !implementingFiles.isEmpty then "Complete" else "Missing",
        implementedIn := implementingFiles.map (·.fileName) })
    let filesCoveragePercentages := successfulAnalyses.filterMap (·.coveragePercentage)
    let base : Int :=
      if 0 < filesCoveragePercentages.length then
        jsRoundDiv filesCoveragePercentages.sum (filesCoveragePercentages.length : Int)
      else
        let implementedCount := (comparisonTable.filter (·.implemented)).length
        let totalCount := comparisonTable.length
        if 0 < totalCount then jsCountCoverage implementedCount totalCount else 0
    let overall : Int :=
      if base = 0 ∧ comparisonTable.any (·.implemented) then max 1 base else base
    { comparisonTable := comparisonTable,
      missingCoreFunctionalities := missingCore,
      overallCoveragePercentage := overall }

/-- JS `Array.prototype.join(sep)` on strings. -/
def jsJoin (sep : String) : List String → String
  | [] => ""
  | x :: t => t.foldl (fun acc y => acc ++ sep ++ y) x

/-- `generateAggregatedSummary(analysisResults)` (`logicAnalyzer.js` 178-187). -/
def generateAggregatedSummary (analysisResults : List AnalysisResult) : String :=
  let successfulAnalyses := analysisResults.filter (·.success)
  if successfulAnalyses.isEmpty then
    "No successful file analyses to generate summary"
  else
    jsJoin "\n\n" (successfulAnalyses.map (fun r => r.summary.getD ""))

/-- Stable insertion of a tagged test case before the first entry of
greater-or-equal criticality rank. -/
def insertByRank (a : TestCaseTagged) : List TestCaseTagged → List TestCaseTagged
  | [] => [a]
  | b :: t =>
    if criticalityOrder a.criticality ≤ criticalityOrder b.criticality then a :: b :: t
    else b :: insertByRank a t

/-- Stable sort by criticality rank: the model of
`sort((a,b) => criticalityOrder[a.criticality] - criticalityOrder[b.criticality])`
(ES2019 `Array.prototype.sort` is stable). -/
def sortByCriticality : List TestCaseTagged → List TestCaseTagged
  | [] => []
  | x :: t => insertByRank x (sortByCriticality t)

/-- The flatten-and-tag loop of `extractCriticalTestCases`: for each successful
analysis take `missingNegativeTestCases || missingTestCases` and tag each entry
with the file name. -/
def allMissingTestCases (analysisResults : List AnalysisResult) : List TestCaseTagged :=
  (analysisResults.filter (·.success)).flatMap (fun r =>
    ((r.missingNegativeTestCases.orElse (fun _ => r.missingTestCases)).getD []).map
      (fun tc =>
        { description := tc.description, criticality := tc.criticality,
          impact := tc.impact, fileName := r.fileName }))

/-- `extractCriticalTestCases(analysisResults)` (`logicAnalyzer.js` 291-319). -/
def extractCriticalTestCases (analysisResults : List AnalysisResult) : List TestCaseTagged :=
  if (analysisResults.filter (·.success)).isEmpty then []
  else sortByCriticality (allMissingTestCases analysisResults)

/-- A classified input file as the aggregation endpoint receives it. -/
structure FileRecord where
  path : String
  content : String
  classification : String
deriving DecidableEq, Inhabited

/-- The `fileCount` sub-object of the aggregate. -/
structure FileCount where
  total : Nat
  analyzed : Nat
  skipped : Nat
deriving DecidableEq, Inhabited

/-- The success shape of the aggregate returned by `analyzeLogicFiles`. -/
structure Aggregated where
  fileCount : FileCount
  fileAnalyses : List AnalysisResult
  summary : String
  functionalityComparison : List ComparisonEntry
  missingCoreFunctionalities : List String
  coveragePercentage : Int
  criticalTestCases : List TestCaseTagged
deriving DecidableEq, Inhabited

/-- The union result type of `analyzeLogicFiles`: `{success:false, error}` or
the success aggregate. -/
inductive AggResult where
  | failure (error : String)
  | success (agg : Aggregated)
deriving DecidableEq, Inhabited

/-- Projection picking the success aggregate (junk default on failure). -/
def AggResult.getAgg : AggResult → Aggregated
  | .success a => a
  | .failure _ => default

/-- Whether an `AggResult` is the success shape. -/
def AggResult.isSuccess : AggResult → Bool
  | .success _ => true
  | .failure _ => false

/-- `analyzeLogicFiles(files)` (`logicAnalyzer.js` 97-171). -/
def analyzeLogicFiles (model : Model) (files : List FileRecord) : AggResult :=
  let logicFiles := files.filter (fun f => f.classification == "logic")
  if logicFiles.isEmpty then
    .failure "No logic files found for analysis"
  else
    let analysisResults := logicFiles.map (fun f => analyzeLogicFile model f.content f.path)
    let nonSkippedCount := (analysisResults.filter (fun r => !r.skipped)).length
    if nonSkippedCount = 0 then
      .failure "All logic files were excluded as error handling files"
    else
      let functionalityData := generateFunctionalityComparison analysisResults
      let coveragePercentage :=
        if functionalityData.overallCoveragePercentage = 0 ∧
            functionalityData.comparisonTable.any (·.implemented) then
          (50 : Int)
        else functionalityData.overallCoveragePercentage
      .success
        { fileCount :=
            { total := logicFiles.length,
              analyzed := nonSkippedCount,
              skipped := logicFiles.length - nonSkippedCount },
          fileAnalyses := analysisResults,
          summary := generateAggregatedSummary analysisResults,
          functionalityComparison := functionalityData.comparisonTable,
          missingCoreFunctionalities := functionalityData.missingCoreFunctionalities,
          coveragePercentage := coveragePercentage,
          criticalTestCases := extractCriticalTestCases analysisResults }

/-! ## testGenerator.js: regex-based text transformations

Each JS `String.prototype.replace(regex-with-g-flag, '')` is modelled as a
left-to-right scan over the original character list: at each position the
specific regex is tried (its backtracking is deterministic for these
patterns); a match is deleted and scanning resumes after it. -/

/-- JS `\w` (ASCII word character). -/
def isWordChar (c : Char) : Bool :=
  c.isAlphanum || c = '_'

/-- JS `\s` restricted to ASCII whitespace. -/
def isWsChar (c : Char) : Bool :=
  c = ' ' || c = '\t' || c = '\n' || c = '\r' || c = '\x0b' || c = '\x0c'

/-- Length of the leading whitespace run. -/
def wsCount (cs : List Char) : Nat :=
  (cs.takeWhile isWsChar).length

/-- Length of the leading `[\w.]` run. -/
def wordDotCount (cs : List Char) : Nat :=
  (cs.takeWhile (fun c => isWordChar c || c = '.')).length

/-- Length of the leading `\w` run. -/
def wordCount (cs : List Char) : Nat :=
  (cs.takeWhile isWordChar).length

/-- Model of JS `String.prototype.trim` (ASCII whitespace). -/
def jsTrim (s : String) : String :=
  String.mk (((s.toList.dropWhile isWsChar).reverse.dropWhile isWsChar).reverse)

/-- Generic global-replace-with-empty scan: delete each leftmost match
(`m` returns the match length at the current position), resuming after it.
Structural recursion on a fuel counter (each step consumes at least one
character, so fuel = input length suffices). -/
def replaceScanFuel (m : List Char → Option Nat) : Nat → List Char → List Char
  | _, [] => []
  | 0, cs => cs
  | fuel + 1, c :: t =>
    match m (c :: t) with
    | some k =>
      if 1 ≤ k then replaceScanFuel m fuel ((c :: t).drop k)
      else c :: replaceScanFuel m fuel t
    | none => c :: replaceScanFuel m fuel t

/-- Run the global-replace scan with sufficient fuel. -/
def replaceScan (m : List Char → Option Nat) (cs : List Char) : List Char :=
  replaceScanFuel m cs.length cs

/-- Whether the last character of a (matched) span is a newline; determines
the multiline `^` context where scanning resumes. -/
def lastIsNewline (l : List Char) : Bool :=
  match l.getLast? with
  | some c => c = '\n'
  | none => false

/-- Like `replaceScanFuel` but the matcher also receives whether the current
position is a line start (for multiline `^`). -/
def replaceScanLineFuel (m : Bool → List Char → Option Nat) : Nat → Bool → List Char → List Char
  | _, _, [] => []
  | 0, _, cs => cs
  | fuel + 1, lineStart, c :: t =>
    match m lineStart (c :: t) with
    | some k =>
      if 1 ≤ k then replaceScanLineFuel m fuel (lastIsNewline ((c :: t).take k)) ((c :: t).drop k)
      else c :: replaceScanLineFuel m fuel (c = '\n') t
    | none => c :: replaceScanLineFuel m fuel (c = '\n') t

/-- Run the line-aware global-replace scan with sufficient fuel. -/
def replaceScanLine (m : Bool → List Char → Option Nat) (lineStart : Bool) (cs : List Char) : List Char :=
  replaceScanLineFuel m cs.length lineStart cs

/-- Match of `using\s+[\w.]+;\s*` at the head of `cs` (regexes on
`testGenerator.js` lines 73 and 100 are identical). -/
def usingMatchLen (cs : List Char) : Option Nat :=
  if listStartsWith cs "using".toList then
    let r1 := cs.drop 5
    let nws := wsCount r1
    if nws = 0 then none
    else
      let r2 := r1.drop nws
      let nw := wordDotCount r2
      if nw = 0 then none
      else
        match r2.drop nw with
        | ';' :: r4 => some (5 + nws + nw + 1 + wsCount r4)
        | _ => none
  else none

/-- Match of `namespace\s+[\w.]+\s*\{[\s\S]*?\}` (lazy body up to the first
closing brace) at the head of `cs` (line 70). -/
def namespaceBlockMatchLen (cs : List Char) : Option Nat :=
  if listStartsWith cs "namespace".toList then
    let r1 := cs.drop 9
    let nws := wsCount r1
    if nws = 0 then none
    else
      let r2 := r1.drop nws
      let nw := wordDotCount r2
      if nw = 0 then none
      else
        let r3 := r2.drop nw
        let nws2 := wsCount r3
        match r3.drop nws2 with
        | '{' :: r4 =>
          let inner := (r4.takeWhile (fun c => !(c = '}'))).length
          match r4.drop inner with
          | '}' :: _ => some (9 + nws + nw + nws2 + 1 + inner + 1)
          | _ => none
        | _ => none
  else none

/-- Match of `namespace\s+[\w.]+\s*\{` (opening brace only, line 103). -/
def namespaceOpenMatchLen (cs : List Char) : Option Nat :=
  if listStartsWith cs "namespace".toList then
    let r1 := cs.drop 9
    let nws := wsCount r1
    if nws = 0 then none
    else
      let r2 := r1.drop nws
      let nw := wordDotCount r2
      if nw = 0 then none
      else
        let r3 := r2.drop nw
        let nws2 := wsCount r3
        match r3.drop nws2 with
        | '{' :: _ => some (9 + nws + nw + nws2 + 1)
        | _ => none
  else none

/-- Scan inside an attribute argument list: lazy `.*?` up to the first `)`
immediately followed by `]`; `.` does not cross a newline.  Returns the
number of characters consumed including the closing `)]`. -/
def attrGroupScan : List Char → Option Nat
  | ')' :: ']' :: _ => some 2
  | '\n' :: _ => none
  | _ :: t => (attrGroupScan t).map (· + 1)
  | [] => none

/-- Match of `\[\w+(?:\(.*?\))?\]\s*` at the head of `cs` (line 76). -/
def attrMatchLen (cs : List Char) : Option Nat :=
  match cs with
  | '[' :: r1 =>
    let nw := wordCount r1
    if nw = 0 then none
    else
      match r1.drop nw with
      | '(' :: r3 =>
        match attrGroupScan r3 with
        | some g => some (1 + nw + 1 + g + wsCount (r3.drop g))
        | none => none
      | ']' :: r4 => some (1 + nw + 1 + wsCount r4)
      | _ => none
  | _ => none

/-- The `\`\`\`$` alternative: three backticks before a newline or at the end
of input (`$` is zero-width). -/
def fenceEndLen (cs : List Char) : Option Nat :=
  if listStartsWith cs (String.toList "```") then
    match cs.drop 3 with
    | [] => some 3
    | '\n' :: _ => some 3
    | _ => none
  else none

/-- Match of the code-fence regex
`^\`\`\`csharp\n|^\`\`\`cs\n|^\`\`\`c#\n|^\`\`\`\n|\`\`\`$` (multiline,
line 67); alternatives are tried in source order. -/
def fenceMatchLen (lineStart : Bool) (cs : List Char) : Option Nat :=
  if lineStart && listStartsWith cs (String.toList "```csharp\n") then some 10
  else if lineStart && listStartsWith cs (String.toList "```cs\n") then some 6
  else if lineStart && listStartsWith cs (String.toList "```c#\n") then some 6
  else if lineStart && listStartsWith cs (String.toList "```\n") then some 4
  else fenceEndLen cs

/-- Index of the last newline in a list, if any. -/
def lastNlIdx : List Char → Option Nat
  | [] => none
  | c :: t =>
    match lastNlIdx t with
    | some j => some (j + 1)
    | none => if c = '\n' then some 0 else none

/-- Match of `^\s*\}\s*$` (multiline, line 104): greedy leading whitespace
(which may span newlines), a closing brace, then greedy whitespace up to the
end of input or backtracked to the last newline (the `$` is zero-width). -/
def braceLineMatchLen (lineStart : Bool) (cs : List Char) : Option Nat :=
  if !lineStart then none
  else
    let w1 := wsCount cs
    match cs.drop w1 with
    | '}' :: rest =>
      let pre := rest.takeWhile isWsChar
      if (rest.drop pre.length).isEmpty then some (w1 + 1 + pre.length)
      else
        match lastNlIdx pre with
        | some j => some (w1 + 1 + j)
        | none => none
    | _ => none

/-- `.replace(/using\s+[\w.]+;\s*\/g, '')`. -/
def replaceUsing (s : String) : String :=
  String.mk (replaceScan usingMatchLen s.toList)

/-- `.replace(/namespace\s+[\w.]+\s*\{[\s\S]*?\}/g, '')`. -/
def replaceNamespaceBlock (s : String) : String :=
  String.mk (replaceScan namespaceBlockMatchLen s.toList)

/-- `.replace(/namespace\s+[\w.]+\s*\{/g, '')`. -/
def replaceNamespaceOpen (s : String) : String :=
  String.mk (replaceScan namespaceOpenMatchLen s.toList)

/-- `.replace(/\[\w+(?:\(.*?\))?\]\s*\/g, '')`. -/
def replaceAttrTags (s : String) : String :=
  String.mk (replaceScan attrMatchLen s.toList)

/-- The code-fence stripping replace (multiline flags; scan starts at a line
start). -/
def replaceCodeFences (s : String) : String :=
  String.mk (replaceScanLine fenceMatchLen true s.toList)

/-- `.replace(/^\s*\}\s*$/gm, '')`. -/
def eraseClosingBraceLines (s : String) : String :=
  String.mk (replaceScanLine braceLineMatchLen true s.toList)

/-- The post-processing pipeline of `generateTestCode` (`testGenerator.js`
63-81): strip code fences, namespace blocks, using statements, attribute
tags, then trim. -/
def cleanupTestCode (testCode : String) : String :=
  jsTrim (replaceAttrTags (replaceUsing (replaceNamespaceBlock (replaceCodeFences testCode))))

/-- First match of `/class\s+([\w]+)/i` (case-insensitive, no word boundary),
returning the captured class name (`createTestProject`, line 96). -/
def classScanProj : List Char → Option (List Char)
  | [] => none
  | c :: t =>
    match
      (if ((c :: t).take 5).map Char.toLower = String.toList "class" then
        let r1 := (c :: t).drop 5
        let nws := wsCount r1
        if nws = 0 then none
        else
          let w := (r1.drop nws).takeWhile isWordChar
          if w.isEmpty then none else some w
      else none) with
    | some w => some w
    | none => classScanProj t

/-- `sourceCode.match(/class\s+([\w]+)/i)` with the `'DefaultClass'` default. -/
def projectClassName (sourceCode : String) : String :=
  match classScanProj sourceCode.toList with
  | some w => String.mk w
  | none => "DefaultClass"

/-- First match of `/\bclass\s+(\w+)\b/` (word boundary before `class`),
returning the captured class name (`runTestOnAzure`, line 279).  The flag
tracks whether the previous character is a word character. -/
def classScanAzure (prevIsWord : Bool) : List Char → Option (List Char)
  | [] => none
  | c :: t =>
    match
      (if !prevIsWord && listStartsWith (c :: t) (String.toList "class") then
        let r1 := (c :: t).drop 5
        let nws := wsCount r1
        if nws = 0 then none
        else
          let w := (r1.drop nws).takeWhile isWordChar
          if w.isEmpty then none else some w
      else none) with
    | some w => some w
    | none => classScanAzure (isWordChar c) t

/-- `sourceCode.match(/\bclass\s+(\w+)\b/)` with the `'TestClass'` default. -/
def azureClassName (sourceCode : String) : String :=
  match classScanAzure false sourceCode.toList with
  | some w => String.mk w
  | none => "TestClass"

/-- The canned simplified source snippet sent to the Azure sandbox
(`runTestOnAzure`, lines 287-293). -/
def cannedAzureSource (className : String) : String :=
  "public class " ++ className ++ " \n\x7b\n    public int Add(int a, int b) \n    \x7b\n        return a + b;\n    \x7d\n\x7d"

/-- The canned simplified test snippet (`runTestOnAzure`, lines 296-308;
`testMethodName` is the constant `'TestMethod'`). -/
def cannedAzureTest (className : String) : String :=
  "public static void TestMethod() \n\x7b\n    " ++ className ++ " obj = new " ++ className
  ++ "();\n    int result = obj.Add(2, 3);\n    if (result == 5)\n    \x7b\n        Console.WriteLine(\"TestMethod PASSED\");\n    \x7d\n    else\n    \x7b\n        Console.WriteLine(\"TestMethod FAILED: Expected 5, got \" + result);\n    \x7d\n\x7d"

/-- The request body POSTed to the Azure Function. -/
structure AzureRequest where
  sourceCode : String
  testCode : String
deriving DecidableEq, Inhabited

/-- The body actually submitted (`axios.post(AZURE_FUNCTION_URL, {...})`,
lines 332-335): built only from the class name detected in the source code. -/
def azurePayload (sourceCode : String) : AzureRequest :=
  let className := azureClassName sourceCode
  { sourceCode := jsTrim (cannedAzureSource className),
    testCode := jsTrim (cannedAzureTest className) }

/-- A normalized test-detail entry (always has the four fields). -/
structure TestDetail where
  name : String
  result : String
  duration : String
  error : Option String
deriving DecidableEq, Inhabited

/-- A raw detail entry from the Azure response (fields may be missing). -/
structure AzureRawDetail where
  name : Option String := none
  result : Option String := none
  duration : Option String := none
  error : Option String := none
deriving DecidableEq, Inhabited

/-- JS `o || 'dflt'` on an optional string field (empty string is falsy). -/
def jsOrStr (o : Option String) (dflt : String) : String :=
  match o with
  | some s => if s = "" then dflt else s
  | none => dflt

/-- JS `o || null` on an optional string field. -/
def jsOrNull (o : Option String) : Option String :=
  match o with
  | some s => if s = "" then none else some s
  | none => none

/-- The per-detail normalization in `runTestOnAzure` (lines 345-354). -/
def normalizeDetail (d : AzureRawDetail) : TestDetail :=
  { name := jsOrStr d.name "Unknown test",
    result := jsOrStr d.result "Unknown",
    duration := jsOrStr d.duration "N/A",
    error := jsOrNull d.error }

/-- The raw `response.data` shape from the Azure Function. -/
structure AzureRawData where
  success : Bool := false
  error : Option String := none
  passed : Option Int := none
  failed : Option Int := none
  skipped : Option Int := none
  total : Option Int := none
  duration : Option String := none
  details : Option (List AzureRawDetail) := none
deriving DecidableEq, Inhabited

/-- The processed results object returned on the ok path (details
normalized). -/
structure AzureProcessed where
  success : Bool
  error : Option String := none
  passed : Option Int := none
  failed : Option Int := none
  skipped : Option Int := none
  total : Option Int := none
  duration : Option String := none
  details : List TestDetail := []
deriving DecidableEq, Inhabited

/-- The union of the two object shapes `runTestOnAzure` returns: processed
results, or `{success:false, error, results:null}`. -/
inductive AzureRunResult where
  | okData (data : AzureProcessed)
  | failData (error : String)
deriving DecidableEq, Inhabited

/-- The `success` field of a `runTestOnAzure` result. -/
def AzureRunResult.success : AzureRunResult → Bool
  | .okData d => d.success
  | .failData _ => false

/-- The `error` field. -/
def AzureRunResult.errorField : AzureRunResult → Option String
  | .okData d => d.error
  | .failData e => some e

/-- The `passed` field. -/
def AzureRunResult.passedField : AzureRunResult → Option Int
  | .okData d => d.passed
  | .failData _ => none

/-- The `failed` field. -/
def AzureRunResult.failedField : AzureRunResult → Option Int
  | .okData d => d.failed
  | .failData _ => none

/-- The `skipped` field. -/
def AzureRunResult.skippedField : AzureRunResult → Option Int
  | .okData d => d.skipped
  | .failData _ => none

/-- The `total` field. -/
def AzureRunResult.totalField : AzureRunResult → Option Int
  | .okData d => d.total
  | .failData _ => none

/-- The `duration` field. -/
def AzureRunResult.durationField : AzureRunResult → Option String
  | .okData d => d.duration
  | .failData _ => none

/-- The `details` field. -/
def AzureRunResult.detailsField : AzureRunResult → List TestDetail
  | .okData d => d.details
  | .failData _ => []

/-- The Azure Function HTTP call: a request body to a response
(`Except.error` models a thrown transport/non-2xx error; `Option.none`
models a falsy `response.data`). -/
def AzureClient := AzureRequest → Except String (Option AzureRawData)

/-- `runTestOnAzure(testCode, filePath, sourceCode)` (`testGenerator.js`
262-386).  `testCode` and `filePath` are only logged by the source, never
used. -/
def runTestOnAzure (azure : AzureClient) (testCode filePath sourceCode : String) : AzureRunResult :=
  match azure (azurePayload sourceCode) with
  | .error e => .failData (if e = "" then "Error running test on Azure" else e)
  | .ok none => .failData "Invalid response from Azure Function"
  | .ok (some raw) =>
    .okData
      { success := raw.success, error := raw.error, passed := raw.passed,
        failed := raw.failed, skipped := raw.skipped, total := raw.total,
        duration := raw.duration,
        details := (raw.details.getD []).map normalizeDetail }

/-- JS/Node `s.endsWith(suffix)` (character lists). -/
def strEndsWith (s suffix : String) : Bool :=
  listStartsWith s.toList.reverse suffix.toList.reverse

/-- Model of Node `path.basename(fileName, '.cs')`: last `/`-segment
(ignoring trailing slashes), with a trailing `.cs` stripped unless the whole
segment is `.cs`. -/
def basenameNoCs (fileName : String) : String :=
  let noTrail := fileName.toList.reverse.dropWhile (fun c => c = '/')
  let base := (noTrail.takeWhile (fun c => !(c = '/'))).reverse
  let b := String.mk base
  if b ≠ ".cs" ∧ strEndsWith b ".cs" then String.mk (base.take (base.length - 3)) else b

/-- `generateDefaultTestDetails(className, count)` (`testGenerator.js`
498-511). -/
def generateDefaultTestDetails (className : String) (count : Nat) : List TestDetail :=
  (List.range count).map (fun i =>
    { name := "Test" ++ toString (i + 1) ++ "_" ++ className,
      result := "Pending", duration := "N/A", error := none })

/-- `createTestProject(sourceCode, testCode)` (`testGenerator.js` 94-151). -/
def createTestProject (sourceCode testCode : String) : String :=
  let className := projectClassName sourceCode
  let cleanTestCode := replaceUsing testCode
  let cleanSourceCode := eraseClosingBraceLines (replaceNamespaceOpen sourceCode)
  "using System;\nusing System.Collections.Generic;\nusing System.Linq;\n\n// Original source code\n"
  ++ jsTrim cleanSourceCode
  ++ "\n\n// Test code\n"
  ++ jsTrim cleanTestCode
  ++ "\n\npublic class Program\n\x7b\n    public static void Main(string[] args)\n    \x7b\n        Console.WriteLine(\"Running tests...\");\n        \n        // Find all test methods and run them\n        var testClass = new "
  ++ className
  ++ "Tests();\n        var testMethods = typeof("
  ++ className
  ++ "Tests).GetMethods()\n            .Where(m => m.Name.StartsWith(\"Test\") && m.ReturnType == typeof(void));\n            \n        int passed = 0;\n        int failed = 0;\n        \n        foreach (var method in testMethods)\n        \x7b\n            try\n            \x7b\n                Console.WriteLine($\"Running \x7bmethod.Name\x7d\");\n                method.Invoke(testClass, null);\n                Console.WriteLine($\"PASSED: \x7bmethod.Name\x7d\");\n                passed++;\n            \x7d\n            catch (Exception ex)\n            \x7b\n                Console.WriteLine($\"FAILED: \x7bmethod.Name\x7d - \x7bex.InnerException?.Message ?? ex.Message\x7d\");\n                failed++;\n            \x7d\n        \x7d\n        \n        Console.WriteLine($\"Tests complete. Passed: \x7bpassed\x7d, Failed: \x7bfailed\x7d\");\n    \x7d\n\x7d\n"

/-- The `{projectCode, instructions}` pair from
`generateLocalExecutionInstructions`. -/
structure LocalInstructions where
  projectCode : String
  instructions : String
deriving DecidableEq, Inhabited

/-- The joined instruction lines (`testGenerator.js` 403-411). -/
def localInstructionsText (className : String) : String :=
  "# How to Run These Tests Locally\n\n1. Create a new C# project: dotnet new console -n "
  ++ className
  ++ "Tests\n2. Change to the project directory: cd "
  ++ className
  ++ "Tests\n3. Add NUnit packages: dotnet add package NUnit and dotnet add package NUnit3TestAdapter and dotnet add package Microsoft.NET.Test.Sdk and dotnet add package Moq\n4. Replace the content of Program.cs with the test code\n5. Run the tests: dotnet test"

/-- `generateLocalExecutionInstructions(testCode, fileName, sourceCode)`
(`testGenerator.js` 395-417). -/
def generateLocalExecutionInstructions (testCode fileName sourceCode : String) : LocalInstructions :=
  { projectCode := createTestProject sourceCode testCode,
    instructions := localInstructionsText (basenameNoCs fileName) }

/-- The TestRunResult-shaped object `runTestCode` returns (fields of both the
online and the local-fallback shapes). -/
structure TestRunOutcome where
  success : Bool
  error : Option String := none
  passed : Option Int := none
  failed : Option Int := none
  skipped : Option Int := none
  total : Option Int := none
  duration : Option String := none
  details : List TestDetail := []
  onlineExecution : Bool := false
  localExecution : Bool := false
  testCode : Option String := none
  projectCode : Option String := none
  instructions : Option String := none
deriving DecidableEq, Inhabited

/-- `runTestCode(testCode, fileName, sourceCode)` (`testGenerator.js`
426-490). -/
def runTestCode (azure : AzureClient) (testCode fileName sourceCode : String) : TestRunOutcome :=
  let className := basenameNoCs fileName
  let azureResult := runTestOnAzure azure testCode fileName sourceCode
  if azureResult.success then
    { success := azureResult.success, error := azureResult.errorField,
      passed := azureResult.passedField, failed := azureResult.failedField,
      skipped := azureResult.skippedField, total := azureResult.totalField,
      duration := azureResult.durationField, details := azureResult.detailsField,
      onlineExecution := true }
  else
    let localInstructions := generateLocalExecutionInstructions testCode fileName sourceCode
    { success := false,
      error := some (jsOrStr azureResult.errorField "Azure Function execution failed"),
      passed := some 0, failed := some 0, skipped := some 0, total := some 0,
      duration := some "N/A (Local execution required)",
      details := (generateDefaultTestDetails className 3).map (fun detail =>
        { detail with result := "Pending", duration := "N/A (Local execution required)" }),
      localExecution := true,
      testCode := some testCode,
      projectCode := some localInstructions.projectCode,
      instructions := some localInstructions.instructions }

/-! ## server.js routes -/

/-- An entry of the repository tree returned by the hosting API. -/
structure TreeEntry where
  path : String
  type : String
deriving DecidableEq, Inhabited

/-- Data from a GitHub API GET (fields used by the route). -/
structure GhData where
  defaultBranch : String := ""
  tree : List TreeEntry := []
deriving DecidableEq, Inhabited

/-- The outbound `axios.get` call: URL to data or a thrown error (network
failure or non-2xx). -/
def GithubClient := String → Except String GhData

/-- Split step for `jsSplit` (fuel-structural; each step consumes at least
one character). -/
def jsSplitFuel (sep : List Char) : Nat → List Char → List Char → List (List Char)
  | _, acc, [] => [acc.reverse]
  | 0, acc, cs => [acc.reverse ++ cs]
  | fuel + 1, acc, c :: t =>
    if sep ≠ [] ∧ listStartsWith (c :: t) sep then
      acc.reverse :: jsSplitFuel sep fuel [] ((c :: t).drop sep.length)
    else jsSplitFuel sep fuel (c :: acc) t

/-- JS `s.split(sep)` for a non-empty separator (the modelled code only
splits on `'/'`). -/
def jsSplit (s sep : String) : List String :=
  if sep = "" then [s]
  else (jsSplitFuel sep.toList s.toList.length [] s.toList).map String.mk

/-- JS array indexing: out-of-range (including negative) gives `undefined`,
which a template literal renders as the string `"undefined"`. -/
def jsAt (l : List String) (i : Int) : String :=
  if i < 0 then "undefined"
  else
    match l.get? i.toNat with
    | some v => v
    | none => "undefined"

/-- `urlParts[urlParts.length - 2]` of `repoUrl.split('/')` (`server.js`
32-33). -/
def repoOwnerOf (repoUrl : String) : String :=
  let urlParts := jsSplit repoUrl "/"
  jsAt urlParts ((urlParts.length : Int) - 2)

/-- `urlParts[urlParts.length - 1]` of `repoUrl.split('/')` (`server.js`
34). -/
def repoNameOf (repoUrl : String) : String :=
  let urlParts := jsSplit repoUrl "/"
  jsAt urlParts ((urlParts.length : Int) - 1)

/-- The HTTP response of the `/api/repository` route. -/
structure RepoRouteResp where
  status : Nat
  success : Bool
  error : Option String := none
  files : Option (List TreeEntry) := none
deriving DecidableEq, Inhabited

/-- The `/api/repository` route handler (`server.js` 27-61, identical in the
alternate server variant): split the URL, call the hosting API twice, filter
`.cs` blobs; any thrown error is caught and surfaced as HTTP 500. -/
def repositoryRoute (github : GithubClient) (repoUrl pat : String) : RepoRouteResp :=
  let owner := repoOwnerOf repoUrl
  let repo := repoNameOf repoUrl
  match github ("https://api.github.com/repos/" ++ owner ++ "/" ++ repo) with
  | .error e => { status := 500, success := false, error := some e }
  | .ok repoInfo =>
    match
      github ("https://api.github.com/repos/" ++ owner ++ "/" ++ repo ++ "/git/trees/"
        ++ repoInfo.defaultBranch ++ "?recursive=1") with
    | .error e => { status := 500, success := false, error := some e }
    | .ok resp =>
      { status := 200, success := true,
        files := some (resp.tree.filter (fun file =>
          strEndsWith file.path ".cs" && file.type == "blob")) }

/-- The HTTP response of the `/api/analyze-logic` route. -/
structure AnalyzeRouteResp where
  status : Nat
  success : Bool
  error : Option String := none
  results : Option AggResult := none
deriving DecidableEq, Inhabited

/-- The `/api/analyze-logic` route handler (alternate server variant,
lines 133-154): 400 when `files` is missing/not an array/empty (`none`
models both a missing and a non-array value), otherwise HTTP 200 with
`success:true` wrapping whatever `analyzeLogicFiles` returned. -/
def analyzeLogicRoute (model : Model) (files : Option (List FileRecord)) : AnalyzeRouteResp :=
  match files with
  | none => { status := 400, success := false, error := some "No files provided for analysis" }
  | some fs =>
    if fs.length = 0 then
      { status := 400, success := false, error := some "No files provided for analysis" }
    else
      { status := 200, success := true, results := some (analyzeLogicFiles model fs) }

/-! ## Concrete oracles used by witnesses -/

/-- A model oracle whose call always throws. -/
def modelFails : Model := fun _ _ => .error "model call failed"

/-- A model oracle returning an empty payload. -/
def modelEmpty : Model := fun _ _ => .ok {}

/-- An Azure client whose call always throws. -/
def azureDown : AzureClient := fun _ => .error "connect ECONNREFUSED"

/-- A GitHub client whose calls always fail upstream. -/
def gh404 : GithubClient := fun _ => .error "Request failed with status code 404"

/-- Coverage formula exactly as the original claim words it (step 7 before
the floor rule): if any successful per-file analysis reported a numeric
`coveragePercentage`, the arithmetic mean of those rounded to nearest;
otherwise the exact rational `round(100 * implementedCount /
totalFunctionalityCount)` over the comparison table (0 when the table is
empty).  The count branch differs from the program, which evaluates it in
binary64 doubles — see `claim1_counterexample`. -/
def specComputedCoverage (analysisResults : List AnalysisResult) (table : List ComparisonEntry) : Int :=
  let covs := (analysisResults.filter (·.success)).filterMap (·.coveragePercentage)
  if 0 < covs.length then jsRoundDiv covs.sum (covs.length : Int)
  else jsRoundDiv ((100 : Int) * (table.filter (·.implemented)).length) (table.length : Int)

/-- Coverage formula as the amended claim words it: the mean branch as
before, the count branch evaluated in IEEE-754 binary64 double arithmetic
exactly as the program evaluates `Math.round((impl/total)*100)`. -/
def specComputedCoverageFloat (analysisResults : List AnalysisResult) (table : List ComparisonEntry) : Int :=
  let covs := (analysisResults.filter (·.success)).filterMap (·.coveragePercentage)
  if 0 < covs.length then jsRoundDiv covs.sum (covs.length : Int)
  else jsCountCoverage (table.filter (·.implemented)).length table.length

/-- Counterexample payload for C1: 40 expected functionalities of which the
first 23 are implemented, and no per-file numeric coverage. -/
def c1xPayload : AnalysisPayload :=
  { expectedFunctionalities := some ((List.range 40).map (fun i => "F" ++ toString i)),
    actualFunctionalities := some ((List.range 23).map (fun i => "F" ++ toString i)) }

/-- Counterexample model for C1. -/
def c1xModel : Model := fun _ _ => .ok c1xPayload

/-- Counterexample files for C1. -/
def c1xFiles : List FileRecord := [⟨"X.cs", "public class X", "logic"⟩]

/-- The aggregate computed in the C1 counterexample scenario. -/
def c1xAgg : Aggregated := (analyzeLogicFiles c1xModel c1xFiles).getAgg

/-- Witness model for C1: the file reports 0% coverage yet implements one
expected functionality, exercising the floor rule. -/
def c1Model : Model := fun _ _ =>
  .ok { expectedFunctionalities := some ["FuncA"],
        actualFunctionalities := some ["FuncA"],
        coveragePercentage := some 0 }

/-- Witness files for C1. -/
def c1Files : List FileRecord := [⟨"A.cs", "public class A", "logic"⟩]

/-- The aggregate computed in the C1 witness scenario. -/
def c1Agg : Aggregated := (analyzeLogicFiles c1Model c1Files).getAgg

/-- C3 scenario: file A. -/
def c3A : FileRecord := ⟨"A.cs", "public class A", "logic"⟩

/-- C3 scenario: file B (its model call will throw). -/
def c3B : FileRecord := ⟨"B.cs", "public class B", "logic"⟩

/-- C3 scenario: file C. -/
def c3C : FileRecord := ⟨"C.cs", "public class C", "logic"⟩

/-- C3 scenario: payload returned for A. -/
def c3PayloadA : AnalysisPayload :=
  { expectedFunctionalities := some ["FA"], actualFunctionalities := some ["FA"] }

/-- C3 scenario: payload returned for C. -/
def c3PayloadC : AnalysisPayload :=
  { expectedFunctionalities := some ["FC"], actualFunctionalities := some ["FC"] }

/-- Counterexample model for C3: the call for `B.cs` throws, the others
succeed. -/
def c3Model : Model := fun _ fileName =>
  if fileName = "B.cs" then .error "model down"
  else if fileName = "A.cs" then .ok c3PayloadA
  else .ok c3PayloadC

/-- Counterexample files for C3. -/
def c3Files : List FileRecord := [c3A, c3B, c3C]

/-- Witness entry for C2: the expected comparison row for `FA`. -/
def c2Entry : ComparisonEntry :=
  { functionality := "FA", implemented := true, implementationStatus := "Complete",
    implementedIn := ["A.cs"] }

/-- Witness analysis list for C2. -/
def c2Results : List AnalysisResult := [.okFile "A.cs" c3PayloadA]

/-- Concrete input for the C4 ordering example: criticalities
[Low, High, Medium, High] with the two High entries distinguishable. -/
def c4Input : AnalysisResult :=
  .okFile "F.cs"
    { missingNegativeTestCases := some
        [⟨"L1", .Low, "impactL"⟩, ⟨"H1", .High, "impactH1"⟩,
         ⟨"M1", .Medium, "impactM"⟩, ⟨"H2", .High, "impactH2"⟩] }

/-! ## C5: exclusion heuristic -/

/-- C5: for every file whose name case-insensitively contains "error" or
"exception", or whose content case-insensitively contains "error page" or
"exception page", `analyzeLogicFile` returns the skipped record with
`skipped: true`, and the result does not depend on the model oracle (no
external call is made). -/
theorem claim5_exclusion (m m' : Model) (fileContent fileName : String)
    (h : strIncludes (jsToLower fileName) "error" = true ∨
         strIncludes (jsToLower fileName) "exception" = true ∨
         strIncludes (jsToLower fileContent) "error page" = true ∨
         strIncludes (jsToLower fileContent) "exception page" = true) :
    analyzeLogicFile m fileContent fileName =
      .skippedFile fileName "Error handling file excluded from core functionality analysis" ∧
    (analyzeLogicFile m fileContent fileName).skipped = true ∧
    analyzeLogicFile m fileContent fileName = analyzeLogicFile m' fileContent fileName := by
  have hx : isErrorHandlingFile fileContent fileName = true := by
    unfold isErrorHandlingFile
    rcases h with h | h | h | h <;> simp [h]
  refine ⟨?_, ?_, ?_⟩ <;> simp [analyzeLogicFile, hx, AnalysisResult.skipped]

/-- Witness for C5 at the file named `ErrorPage.cs` (two different oracles,
arbitrary content). -/
theorem claim5_exclusion_witness :
    (strIncludes (jsToLower "ErrorPage.cs") "error" = true ∨
     strIncludes (jsToLower "ErrorPage.cs") "exception" = true ∨
     strIncludes (jsToLower "public class ErrorPage") "error page" = true ∨
     strIncludes (jsToLower "public class ErrorPage") "exception page" = true) ∧
    (analyzeLogicFile modelFails "public class ErrorPage" "ErrorPage.cs" =
      .skippedFile "ErrorPage.cs" "Error handling file excluded from core functionality analysis" ∧
    (analyzeLogicFile modelFails "public class ErrorPage" "ErrorPage.cs").skipped = true ∧
    analyzeLogicFile modelFails "public class ErrorPage" "ErrorPage.cs" =
      analyzeLogicFile modelEmpty "public class ErrorPage" "ErrorPage.cs") :=
  ⟨Or.inl (by decide),
   claim5_exclusion modelFails modelEmpty "public class ErrorPage" "ErrorPage.cs" (Or.inl (by decide))⟩

/-! ## C6: the test-code cleanup is not idempotent -/

/-- C6 counterexample: removing `using A;` from `ususing A;ing B;`
concatenates the remaining text into `using B;`, which only a second run of
the cleanup removes — so the cleanup applied to its own output is not the
identity. -/
theorem claim6_counterexample :
    cleanupTestCode (cleanupTestCode "ususing A;ing B;") ≠ cleanupTestCode "ususing A;ing B;" := by
  decide

/-- C6 amended: the cleanup is a no-op on any text on which each of its five
stages (fence stripping, namespace-block stripping, using stripping,
attribute stripping, trim) is individually a no-op; on general input a second
application can strip more text. -/
theorem claim6_amended (s : String)
    (h1 : replaceCodeFences s = s) (h2 : replaceNamespaceBlock s = s)
    (h3 : replaceUsing s = s) (h4 : replaceAttrTags s = s) (h5 : jsTrim s = s) :
    cleanupTestCode s = s := by
  rw [cleanupTestCode, h1, h2, h3, h4, h5]

/-- Witness for the amended C6 on a fully clean text. -/
theorem claim6_amended_witness :
    (replaceCodeFences "int x = 1;" = "int x = 1;" ∧
     replaceNamespaceBlock "int x = 1;" = "int x = 1;" ∧
     replaceUsing "int x = 1;" = "int x = 1;" ∧
     replaceAttrTags "int x = 1;" = "int x = 1;" ∧
     jsTrim "int x = 1;" = "int x = 1;") ∧
    cleanupTestCode "int x = 1;" = "int x = 1;" :=
  ⟨⟨by decide, by decide, by decide, by decide, by decide⟩,
   claim6_amended "int x = 1;" (by decide) (by decide) (by decide) (by decide) (by decide)⟩

/-! ## C7: the repository route never returns 400 -/

/-- C7 counterexample: a URL with no `/` cannot be split into owner/name,
yet the route surfaces the upstream failure as HTTP 500, not as a 400
validation error. -/
theorem claim7_counterexample :
    (jsSplit "badrepourl" "/").length = 1 ∧
    (repositoryRoute gh404 "badrepourl" "tok").status = 500 ∧
    ¬(repositoryRoute gh404 "badrepourl" "tok").status = 400 ∧
    (repositoryRoute gh404 "badrepourl" "tok").success = false := by
  decide

/-- C7 amended: the route performs no URL validation.  When the URL cannot be
split into owner and name the owner segment becomes the literal string
`"undefined"` and the request proceeds; every response is either 200 success
or 500 failure — never 400. -/
theorem claim7_amended (github : GithubClient) (repoUrl pat : String) :
    ((jsSplit repoUrl "/").length < 2 → repoOwnerOf repoUrl = "undefined") ∧
    (((repositoryRoute github repoUrl pat).status = 200 ∧
        (repositoryRoute github repoUrl pat).success = true) ∨
     ((repositoryRoute github repoUrl pat).status = 500 ∧
        (repositoryRoute github repoUrl pat).success = false)) := by
  constructor
  · intro h
    have hneg : ((jsSplit repoUrl "/").length : Int) - 2 < 0 := by omega
    unfold repoOwnerOf jsAt
    simp [hneg]
  · rcases hg : github ("https://api.github.com/repos/" ++ repoOwnerOf repoUrl ++ "/"
        ++ repoNameOf repoUrl) with e | d
    · right
      simp [repositoryRoute, hg]
    · rcases hg2 : github ("https://api.github.com/repos/" ++ repoOwnerOf repoUrl ++ "/"
          ++ repoNameOf repoUrl ++ "/git/trees/" ++ d.defaultBranch ++ "?recursive=1") with e2 | d2
      · right
        simp [repositoryRoute, hg, hg2]
      · left
        simp [repositoryRoute, hg, hg2]

/-- Witness for the amended C7 at a one-segment URL and a failing upstream. -/
theorem claim7_amended_witness :
    repoOwnerOf "justaname" = "undefined" ∧
    (((repositoryRoute gh404 "justaname" "t").status = 200 ∧
        (repositoryRoute gh404 "justaname" "t").success = true) ∨
     ((repositoryRoute gh404 "justaname" "t").status = 500 ∧
        (repositoryRoute gh404 "justaname" "t").success = false)) :=
  ⟨(claim7_amended gh404 "justaname" "t").1 (by decide),
   (claim7_amended gh404 "justaname" "t").2⟩

/-! ## C9: the Azure submission ignores the generated test -/

/-- C9: the submitted Azure payload is a function of the first
class-declaration match in the source only — the whole `runTestOnAzure`
result is independent of the test code (and of the file path, which is only
logged); sources with the same detected class name produce identical request
bodies; with no class-declaration match the canned snippets are
parameterized by the placeholder `TestClass`. -/
theorem claim9_cannedPayload :
    (∀ (azure : AzureClient) (t1 t2 filePath sourceCode : String),
      runTestOnAzure azure t1 filePath sourceCode = runTestOnAzure azure t2 filePath sourceCode) ∧
    (∀ s1 s2 : String, azureClassName s1 = azureClassName s2 →
      azurePayload s1 = azurePayload s2) ∧
    (∀ sourceCode : String, classScanAzure false sourceCode.toList = none →
      azurePayload sourceCode =
        { sourceCode := jsTrim (cannedAzureSource "TestClass"),
          testCode := jsTrim (cannedAzureTest "TestClass") }) := by
  refine ⟨fun azure t1 t2 filePath sourceCode => rfl, fun s1 s2 h => ?_, fun sourceCode h => ?_⟩
  · unfold azurePayload
    rw [h]
  · unfold azurePayload azureClassName
    rw [h]

/-- Witness for C9: two sources with the same class name, and a source with
no class declaration. -/
theorem claim9_cannedPayload_witness :
    azureClassName "public class Foo : Base" = azureClassName "class Foo whatever" ∧
    azurePayload "public class Foo : Base" = azurePayload "class Foo whatever" ∧
    classScanAzure false (String.toList "int x = 1;") = none ∧
    azurePayload "int x = 1;" =
      { sourceCode := jsTrim (cannedAzureSource "TestClass"),
        testCode := jsTrim (cannedAzureTest "TestClass") } :=
  ⟨by decide, claim9_cannedPayload.2.1 "public class Foo : Base" "class Foo whatever" (by decide),
   by decide, claim9_cannedPayload.2.2 "int x = 1;" (by decide)⟩

/-! ## C10: aggregate failures are embedded under a 200 success response -/

/-- C10: for a non-empty `files` array the analyze-logic route always
responds HTTP 200 with top-level `success: true` and the aggregation result
— whatever it is, including failure aggregates — only under `results`; the
top-level flag is the same for every aggregation outcome, so a caller
checking only it cannot distinguish a failed aggregate. -/
theorem claim10_topLevelSuccess (model : Model) (fs : List FileRecord) (h : fs ≠ []) :
    (analyzeLogicRoute model (some fs)).status = 200 ∧
    (analyzeLogicRoute model (some fs)).success = true ∧
    (analyzeLogicRoute model (some fs)).results = some (analyzeLogicFiles model fs) ∧
    (∀ (model' : Model) (fs' : List FileRecord), fs' ≠ [] →
      (analyzeLogicRoute model' (some fs')).success = (analyzeLogicRoute model (some fs)).success) := by
  have hlen : ¬(fs.length = 0) := by simpa using h
  refine ⟨?_, ?_, ?_, ?_⟩
  · simp [analyzeLogicRoute, hlen]
  · simp [analyzeLogicRoute, hlen]
  · simp [analyzeLogicRoute, hlen]
  · intro model' fs' h'
    have hlen' : ¬(fs'.length = 0) := by simpa using h'
    simp [analyzeLogicRoute, hlen, hlen']

/-- Witness for C10 on a file set whose aggregation is the "no logic files"
failure aggregate: the route still answers 200 / success true. -/
theorem claim10_topLevelSuccess_witness :
    ([⟨"A.cs", "public class A", "boilerplate"⟩] : List FileRecord) ≠ [] ∧
    ((analyzeLogicRoute modelEmpty (some [⟨"A.cs", "public class A", "boilerplate"⟩])).status = 200 ∧
     (analyzeLogicRoute modelEmpty (some [⟨"A.cs", "public class A", "boilerplate"⟩])).success = true ∧
     (analyzeLogicRoute modelEmpty (some [⟨"A.cs", "public class A", "boilerplate"⟩])).results =
       some (analyzeLogicFiles modelEmpty [⟨"A.cs", "public class A", "boilerplate"⟩]) ∧
     (∀ (model' : Model) (fs' : List FileRecord), fs' ≠ [] →
       (analyzeLogicRoute model' (some fs')).success =
         (analyzeLogicRoute modelEmpty (some [⟨"A.cs", "public class A", "boilerplate"⟩])).success)) :=
  ⟨by decide,
   claim10_topLevelSuccess modelEmpty [⟨"A.cs", "public class A", "boilerplate"⟩] (by decide)⟩

/-! ## C8: the test-run fallback never raises and is well-formed -/

/-- C8: whenever the remote execution call fails (`runTestOnAzure` reports
`success: false`), `runTestCode` returns — without raising, being a total
function — a well-formed result with `success: false`, all-zero counts,
exactly three details each carrying `result: "Pending"` and the four fields
(`name`, `result`, `duration`, `error`), the human-readable local execution
instructions, and the full synthesized local project text. -/
theorem claim8_fallbackShape (azure : AzureClient) (testCode fileName sourceCode : String)
    (h : (runTestOnAzure azure testCode fileName sourceCode).success = false) :
    (runTestCode azure testCode fileName sourceCode).success = false ∧
    (runTestCode azure testCode fileName sourceCode).passed = some 0 ∧
    (runTestCode azure testCode fileName sourceCode).failed = some 0 ∧
    (runTestCode azure testCode fileName sourceCode).skipped = some 0 ∧
    (runTestCode azure testCode fileName sourceCode).total = some 0 ∧
    (runTestCode azure testCode fileName sourceCode).details.length = 3 ∧
    (∀ d ∈ (runTestCode azure testCode fileName sourceCode).details,
      d.result = "Pending" ∧ d.duration = "N/A (Local execution required)" ∧ d.error = none) ∧
    (runTestCode azure testCode fileName sourceCode).instructions =
      some (localInstructionsText (basenameNoCs fileName)) ∧
    (runTestCode azure testCode fileName sourceCode).projectCode =
      some (createTestProject sourceCode testCode) ∧
    (runTestCode azure testCode fileName sourceCode).testCode = some testCode ∧
    (runTestCode azure testCode fileName sourceCode).localExecution = true := by
  have e : runTestCode azure testCode fileName sourceCode =
      { success := false,
        error := some (jsOrStr (runTestOnAzure azure testCode fileName sourceCode).errorField
          "Azure Function execution failed"),
        passed := some 0, failed := some 0, skipped := some 0, total := some 0,
        duration := some "N/A (Local execution required)",
        details := (generateDefaultTestDetails (basenameNoCs fileName) 3).map (fun detail =>
          { detail with result := "Pending", duration := "N/A (Local execution required)" }),
        localExecution := true,
        testCode := some testCode,
        projectCode := some (generateLocalExecutionInstructions testCode fileName sourceCode).projectCode,
        instructions := some (generateLocalExecutionInstructions testCode fileName sourceCode).instructions } := by
    simp only [runTestCode, h, Bool.false_eq_true, if_false]
  rw [e]
  refine ⟨rfl, rfl, rfl, rfl, rfl, ?_, ?_, rfl, rfl, rfl, rfl⟩
  · simp [generateDefaultTestDetails]
  · intro d hd
    simp only [generateDefaultTestDetails, List.map_map, List.mem_map, List.mem_range] at hd
    obtain ⟨i, _, rfl⟩ := hd
    exact ⟨rfl, rfl, rfl⟩

/-- Witness for C8 with a failing Azure client. -/
theorem claim8_fallbackShape_witness :
    (runTestOnAzure azureDown "testX" "Calc.cs" "class Calc").success = false ∧
    ((runTestCode azureDown "testX" "Calc.cs" "class Calc").success = false ∧
     (runTestCode azureDown "testX" "Calc.cs" "class Calc").passed = some 0 ∧
     (runTestCode azureDown "testX" "Calc.cs" "class Calc").failed = some 0 ∧
     (runTestCode azureDown "testX" "Calc.cs" "class Calc").skipped = some 0 ∧
     (runTestCode azureDown "testX" "Calc.cs" "class Calc").total = some 0 ∧
     (runTestCode azureDown "testX" "Calc.cs" "class Calc").details.length = 3 ∧
     (∀ d ∈ (runTestCode azureDown "testX" "Calc.cs" "class Calc").details,
       d.result = "Pending" ∧ d.duration = "N/A (Local execution required)" ∧ d.error = none) ∧
     (runTestCode azureDown "testX" "Calc.cs" "class Calc").instructions =
       some (localInstructionsText (basenameNoCs "Calc.cs")) ∧
     (runTestCode azureDown "testX" "Calc.cs" "class Calc").projectCode =
       some (createTestProject "class Calc" "testX") ∧
     (runTestCode azureDown "testX" "Calc.cs" "class Calc").testCode = some "testX" ∧
     (runTestCode azureDown "testX" "Calc.cs" "class Calc").localExecution = true) :=
  ⟨by decide, claim8_fallbackShape azureDown "testX" "Calc.cs" "class Calc" (by decide)⟩

/-! ## Helper lemmas on the dedup fold and the comparison table -/

/-- Membership through the `insertUnique` fold. -/
theorem mem_foldl_insertUnique (l : List String) (acc : List String) (x : String) :
    x ∈ l.foldl insertUnique acc ↔ x ∈ acc ∨ x ∈ l := by
  induction l generalizing acc with
  | nil => simp
  | cons y t ih =>
    rw [List.foldl_cons, ih]
    unfold insertUnique
    by_cases hy : acc.contains y = true
    · have hmem : y ∈ acc := by simpa using hy
      rw [if_pos hy]
      simp only [List.mem_cons]
      constructor
      · rintro (h | h)
        · exact Or.inl h
        · exact Or.inr (Or.inr h)
      · rintro (h | rfl | h)
        · exact Or.inl h
        · exact Or.inl hmem
        · exact Or.inr h
    · rw [if_neg hy]
      simp [List.mem_append, or_assoc]

/-- `dedupFirst` preserves membership. -/
theorem mem_dedupFirst (l : List String) (x : String) : x ∈ dedupFirst l ↔ x ∈ l := by
  unfold dedupFirst
  rw [mem_foldl_insertUnique]
  simp

/-- The `insertUnique` fold preserves `Nodup`. -/
theorem nodup_foldl_insertUnique (l : List String) (acc : List String) (h : acc.Nodup) :
    (l.foldl insertUnique acc).Nodup := by
  induction l generalizing acc with
  | nil => simpa using h
  | cons y t ih =>
    rw [List.foldl_cons]
    apply ih
    unfold insertUnique
    by_cases hy : acc.contains y = true
    · rw [if_pos hy]
      exact h
    · have hmem : y ∉ acc := by simpa using hy
      rw [if_neg hy, List.nodup_append]
      refine ⟨h, List.nodup_singleton y, fun a ha hay => ?_⟩
      rw [List.mem_singleton] at hay
      exact hmem (hay ▸ ha)

/-- `dedupFirst` produces a duplicate-free list. -/
theorem nodup_dedupFirst (l : List String) : (dedupFirst l).Nodup :=
  nodup_foldl_insertUnique l [] List.nodup_nil

/-- Projecting the key out of the built comparison rows gives back the key
list. -/
theorem map_functionality_mk (keys : List String) (impl : String → Bool)
    (status : String → String) (implIn : String → List String) :
    (keys.map (fun functionality =>
      ({ functionality := functionality, implemented := impl functionality,
         implementationStatus := status functionality,
         implementedIn := implIn functionality } : ComparisonEntry))).map (·.functionality) = keys := by
  induction keys with
  | nil => rfl
  | cons a t ih => simp [ih]

/-- The comparison-table keys are the dedup of the flattened expected
functionalities of the successful analyses. -/
theorem comparison_keys_eq (analysisResults : List AnalysisResult) :
    (generateFunctionalityComparison analysisResults).comparisonTable.map (·.functionality) =
      dedupFirst ((analysisResults.filter (·.success)).flatMap
        (fun r => r.expectedFunctionalities.getD [])) := by
  by_cases hE : (analysisResults.filter (·.success)).isEmpty = true
  · have hnil : analysisResults.filter (·.success) = [] := by simpa using hE
    unfold generateFunctionalityComparison
    rw [if_pos hE, hnil]
    simp [dedupFirst]
  · unfold generateFunctionalityComparison
    rw [if_neg hE]
    exact map_functionality_mk _ _ _ _

/-- Membership in the comparison-table keys. -/
theorem mem_comparison_keys (analysisResults : List AnalysisResult) (name : String) :
    name ∈ (generateFunctionalityComparison analysisResults).comparisonTable.map (·.functionality) ↔
      ∃ r ∈ analysisResults.filter (·.success), name ∈ r.expectedFunctionalities.getD [] := by
  rw [comparison_keys_eq, mem_dedupFirst, List.mem_flatMap]

/-! ## C2: the comparison-table invariant -/

/-- C2: the functionality comparison has exactly one entry per distinct name;
its keys are exactly the union of `expectedFunctionalities` across successful
(non-skipped, non-failed) analyses; an entry is implemented iff its name
occurs verbatim (case-sensitive exact match) in some successful analysis's
`actualFunctionalities`; and `implementedIn` is exactly the file names of
those analyses. -/
theorem claim2_comparisonInvariant (analysisResults : List AnalysisResult) :
    ((generateFunctionalityComparison analysisResults).comparisonTable.map (·.functionality)).Nodup ∧
    (∀ name : String,
      name ∈ (generateFunctionalityComparison analysisResults).comparisonTable.map (·.functionality) ↔
        ∃ r ∈ analysisResults.filter (·.success), name ∈ r.expectedFunctionalities.getD []) ∧
    (∀ e ∈ (generateFunctionalityComparison analysisResults).comparisonTable,
      (e.implemented = true ↔
        ∃ r ∈ analysisResults.filter (·.success),
          e.functionality ∈ r.actualFunctionalities.getD []) ∧
      e.implementedIn =
        ((analysisResults.filter (·.success)).filter
          (fun r => (r.actualFunctionalities.getD []).contains e.functionality)).map (·.fileName)) := by
  refine ⟨?_, fun name => mem_comparison_keys analysisResults name, ?_⟩
  · rw [comparison_keys_eq]
    exact nodup_dedupFirst _
  · intro e he
    by_cases hE : (analysisResults.filter (·.success)).isEmpty = true
    · unfold generateFunctionalityComparison at he
      rw [if_pos hE] at he
      simp at he
    · unfold generateFunctionalityComparison at he
      rw [if_neg hE] at he
      rw [List.mem_map] at he
      obtain ⟨f, hf, rfl⟩ := he
      dsimp only
      refine ⟨⟨?_, ?_⟩, rfl⟩
      · intro hne
        have hnil : (analysisResults.filter (·.success)).filter
            (fun r => (r.actualFunctionalities.getD []).contains f) ≠ [] := by
          intro hc
          rw [hc] at hne
          simp at hne
        obtain ⟨r, hr⟩ := List.exists_mem_of_ne_nil _ hnil
        have hr2 := List.mem_filter.mp hr
        exact ⟨r, hr2.1, by simpa using hr2.2⟩
      · rintro ⟨r, hr, hmem⟩
        have hrf : r ∈ (analysisResults.filter (·.success)).filter
            (fun r => (r.actualFunctionalities.getD []).contains f) :=
          List.mem_filter.mpr ⟨hr, by simpa using hmem⟩
        cases hfil : (analysisResults.filter (·.success)).filter
            (fun r => (r.actualFunctionalities.getD []).contains f) with
        | nil =>
          rw [hfil] at hrf
          simp at hrf
        | cons a t => rfl

/-! ## C1: the coverage formula with the floor rule -/

/-- A zero total yields 0 through the double pipeline. -/
theorem jsCountCoverage_total_zero (implCount : Nat) : jsCountCoverage implCount 0 = 0 := by
  simp [jsCountCoverage, divB64, b64Times100, jsMathRound]

/-- The code's base coverage (with its `totalCount > 0` guard) equals the
unguarded formula (which relies on `jsCountCoverage _ 0 = 0`). -/
theorem base_coverage_eq (covSum : Int) (covLen implCount totalCount : Nat) :
    (if 0 < covLen then jsRoundDiv covSum (covLen : Int)
     else if 0 < totalCount then jsCountCoverage implCount totalCount else 0) =
    (if 0 < covLen then jsRoundDiv covSum (covLen : Int)
     else jsCountCoverage implCount totalCount) := by
  by_cases h1 : 0 < covLen
  · simp [h1]
  · simp only [h1, if_false]
    by_cases h2 : 0 < totalCount
    · simp [h2]
    · have h0 : totalCount = 0 := by omega
      subst h0
      simp [jsCountCoverage_total_zero]

/-- `max 1` applied to a zero computed value is exactly 1. -/
theorem floor_rule_eq (b : Int) (anyImpl : Bool) :
    (if b = 0 ∧ anyImpl = true then max 1 b else b) =
    (if b = 0 ∧ anyImpl = true then 1 else b) := by
  by_cases h : b = 0 ∧ anyImpl = true
  · rcases h with ⟨h0, ha⟩
    subst h0
    simp [ha]
  · simp [h]

/-- The overall percentage computed by `generateFunctionalityComparison`
equals the double-faithful formula with the floor rule applied. -/
theorem gfc_overall_eq (analysisResults : List AnalysisResult) :
    (generateFunctionalityComparison analysisResults).overallCoveragePercentage =
      if specComputedCoverageFloat analysisResults
            (generateFunctionalityComparison analysisResults).comparisonTable = 0 ∧
          (generateFunctionalityComparison analysisResults).comparisonTable.any (·.implemented) = true
      then 1
      else specComputedCoverageFloat analysisResults
            (generateFunctionalityComparison analysisResults).comparisonTable := by
  by_cases hE : (analysisResults.filter (·.success)).isEmpty = true
  · have hnil : analysisResults.filter (·.success) = [] := by simpa using hE
    unfold generateFunctionalityComparison specComputedCoverageFloat
    rw [if_pos hE]
    dsimp only
    rw [hnil]
    simp [jsCountCoverage_total_zero]
  · unfold generateFunctionalityComparison specComputedCoverageFloat
    rw [if_neg hE]
    dsimp only
    rw [base_coverage_eq, floor_rule_eq]

/-- The 50%-force in `analyzeLogicFiles` is dead code: the incoming value is
already floored to 1, so the final value is the floored base formula and is
never 0 while something is implemented. -/
theorem coverage_adjust_helper (S : Int) (anyb : Bool) :
    ((if (if S = 0 ∧ anyb = true then (1 : Int) else S) = 0 ∧ anyb = true then (50 : Int)
      else if S = 0 ∧ anyb = true then 1 else S) =
     (if S = 0 ∧ anyb = true then 1 else S)) ∧
    (anyb = true →
      (if (if S = 0 ∧ anyb = true then (1 : Int) else S) = 0 ∧ anyb = true then (50 : Int)
       else if S = 0 ∧ anyb = true then 1 else S) ≠ 0) := by
  by_cases ha : anyb = true
  · by_cases hs : S = 0
    · simp [ha, hs]
    · simp [ha, hs]
  · simp [ha]

/-- C1 counterexample: with 40 expected functionalities, 23 of them
implemented and no per-file numeric coverage, the program reports 57 — the
binary64 value of `(23/40)*100` is `57.49999999999999...`, which
`Math.round` takes down — while the claimed exact formula
`round(100*23/40) = round(57.5)` gives 58; the floor rule is irrelevant
since neither value is 0, so the claimed equality fails. -/
theorem claim1_counterexample :
    (analyzeLogicFiles c1xModel c1xFiles).isSuccess = true ∧
    (c1xAgg.fileAnalyses.filter (·.success)).filterMap (·.coveragePercentage) = [] ∧
    c1xAgg.functionalityComparison.length = 40 ∧
    (c1xAgg.functionalityComparison.filter (·.implemented)).length = 23 ∧
    c1xAgg.coveragePercentage = 57 ∧
    specComputedCoverage c1xAgg.fileAnalyses c1xAgg.functionalityComparison = 58 ∧
    ¬(c1xAgg.coveragePercentage =
        if specComputedCoverage c1xAgg.fileAnalyses c1xAgg.functionalityComparison = 0 ∧
            c1xAgg.functionalityComparison.any (·.implemented) = true then 1
        else specComputedCoverage c1xAgg.fileAnalyses c1xAgg.functionalityComparison) := by
  decide

/-- C1 amended: for every aggregate the code returns, the coverage
percentage is the mean of reported per-file percentages if any, otherwise
`Math.round((implementedCount/totalCount)*100)` evaluated in binary64
double arithmetic (which can differ by one from exact rational rounding),
with the computed value forced to exactly 1 (never 0) when it is 0 but some
functionality is implemented. -/
theorem claim1_amended (model : Model) (files : List FileRecord) (agg : Aggregated)
    (h : analyzeLogicFiles model files = .success agg) :
    (agg.coveragePercentage =
      if specComputedCoverageFloat agg.fileAnalyses agg.functionalityComparison = 0 ∧
          agg.functionalityComparison.any (·.implemented) = true then 1
      else specComputedCoverageFloat agg.fileAnalyses agg.functionalityComparison) ∧
    (agg.functionalityComparison.any (·.implemented) = true → agg.coveragePercentage ≠ 0) := by
  simp only [analyzeLogicFiles] at h
  split at h
  · exact absurd h (by simp)
  · split at h
    · exact absurd h (by simp)
    · injection h with h2
      subst h2
      dsimp only
      rw [gfc_overall_eq]
      exact coverage_adjust_helper _ _

/-- Witness for the amended C1: one logic file reporting 0% coverage while
implementing an expected functionality; the reported aggregate is exactly 1. -/
theorem claim1_amended_witness :
    analyzeLogicFiles c1Model c1Files = .success c1Agg ∧
    ((c1Agg.coveragePercentage =
      if specComputedCoverageFloat c1Agg.fileAnalyses c1Agg.functionalityComparison = 0 ∧
          c1Agg.functionalityComparison.any (·.implemented) = true then 1
      else specComputedCoverageFloat c1Agg.fileAnalyses c1Agg.functionalityComparison) ∧
    (c1Agg.functionalityComparison.any (·.implemented) = true → c1Agg.coveragePercentage ≠ 0)) :=
  ⟨by decide, claim1_amended c1Model c1Files c1Agg (by decide)⟩

/-! ## C4: criticality ordering of the flattened test cases -/

/-- Inserting past a prefix of strictly lower rank. -/
theorem insertByRank_append (a : TestCaseTagged) (p s : List TestCaseTagged)
    (hp : ∀ b ∈ p, criticalityOrder b.criticality < criticalityOrder a.criticality) :
    insertByRank a (p ++ s) = p ++ insertByRank a s := by
  induction p with
  | nil => rfl
  | cons b t ih =>
    have hb := hp b (List.mem_cons_self b t)
    have hnb : ¬(criticalityOrder a.criticality ≤ criticalityOrder b.criticality) := by omega
    rw [List.cons_append, insertByRank, if_neg hnb, ih (fun x hx => hp x (List.mem_cons_of_mem b hx)),
      List.cons_append]

/-- Inserting in front of a list of greater-or-equal rank. -/
theorem insertByRank_front (a : TestCaseTagged) (s : List TestCaseTagged)
    (hs : ∀ b ∈ s, criticalityOrder a.criticality ≤ criticalityOrder b.criticality) :
    insertByRank a s = a :: s := by
  cases s with
  | nil => rfl
  | cons b t =>
    have hb := hs b (List.mem_cons_self b t)
    rw [insertByRank, if_pos hb]

/-- Rank of an element surviving a criticality filter. -/
theorem crit_of_mem_filter {c : Criticality} {l : List TestCaseTagged} {b : TestCaseTagged}
    (hb : b ∈ l.filter (fun t => decide (t.criticality = c))) : b.criticality = c := by
  have := (List.mem_filter.mp hb).2
  simpa using this

/-- The stable sort by criticality equals High entries, then Medium entries,
then Low entries, each group in input order. -/
theorem sortByCriticality_eq (l : List TestCaseTagged) :
    sortByCriticality l =
      l.filter (fun t => decide (t.criticality = Criticality.High)) ++
      l.filter (fun t => decide (t.criticality = Criticality.Medium)) ++
      l.filter (fun t => decide (t.criticality = Criticality.Low)) := by
  induction l with
  | nil => rfl
  | cons x t ih =>
    rw [show sortByCriticality (x :: t) = insertByRank x (sortByCriticality t) from rfl, ih]
    cases hx : x.criticality with
    | High =>
      have hfront : insertByRank x
          (t.filter (fun t => decide (t.criticality = Criticality.High)) ++
           t.filter (fun t => decide (t.criticality = Criticality.Medium)) ++
           t.filter (fun t => decide (t.criticality = Criticality.Low))) =
          x :: (t.filter (fun t => decide (t.criticality = Criticality.High)) ++
           t.filter (fun t => decide (t.criticality = Criticality.Medium)) ++
           t.filter (fun t => decide (t.criticality = Criticality.Low))) :=
        insertByRank_front x _ (fun b _ => by rw [hx]; exact Nat.zero_le _)
      rw [hfront]
      simp [List.filter_cons, hx]
    | Medium =>
      rw [List.append_assoc]
      rw [insertByRank_append x _ _ (fun b hb => by
        rw [crit_of_mem_filter hb, hx]
        decide)]
      rw [insertByRank_front x _ (fun b hb => by
        rcases List.mem_append.mp hb with hb | hb
        · rw [crit_of_mem_filter hb, hx]
        · rw [crit_of_mem_filter hb, hx]
          decide)]
      simp [List.filter_cons, hx, List.append_assoc]
    | Low =>
      rw [List.append_assoc]
      rw [show (t.filter (fun t => decide (t.criticality = Criticality.High)) ++
          (t.filter (fun t => decide (t.criticality = Criticality.Medium)) ++
           t.filter (fun t => decide (t.criticality = Criticality.Low)))) =
          ((t.filter (fun t => decide (t.criticality = Criticality.High)) ++
            t.filter (fun t => decide (t.criticality = Criticality.Medium))) ++
           t.filter (fun t => decide (t.criticality = Criticality.Low))) from
        (List.append_assoc _ _ _).symm]
      rw [insertByRank_append x _ _ (fun b hb => by
        rcases List.mem_append.mp hb with hb | hb
        · rw [crit_of_mem_filter hb, hx]
          decide
        · rw [crit_of_mem_filter hb, hx]
          decide)]
      rw [insertByRank_front x _ (fun b hb => by
        rw [crit_of_mem_filter hb, hx])]
      simp [List.filter_cons, hx, List.append_assoc]

/-- C4: the extracted critical test cases are the flattening of every
successful analysis's `missingNegativeTestCases` (falling back to the legacy
`missingTestCases`), tagged with the origin file name and stable-sorted by
criticality rank High, Medium, Low — equal-criticality entries keep their
input order; in particular criticalities [Low, High, Medium, High] come out
[High, High, Medium, Low] with the two High entries in input order. -/
theorem claim4_criticalOrdering :
    (∀ analysisResults : List AnalysisResult,
      extractCriticalTestCases analysisResults =
        (allMissingTestCases analysisResults).filter
          (fun t => decide (t.criticality = Criticality.High)) ++
        (allMissingTestCases analysisResults).filter
          (fun t => decide (t.criticality = Criticality.Medium)) ++
        (allMissingTestCases analysisResults).filter
          (fun t => decide (t.criticality = Criticality.Low))) ∧
    extractCriticalTestCases [c4Input] =
      [⟨"H1", .High, "impactH1", "F.cs"⟩, ⟨"H2", .High, "impactH2", "F.cs"⟩,
       ⟨"M1", .Medium, "impactM", "F.cs"⟩, ⟨"L1", .Low, "impactL", "F.cs"⟩] := by
  constructor
  · intro analysisResults
    unfold extractCriticalTestCases
    by_cases hE : (analysisResults.filter (·.success)).isEmpty = true
    · have hnil : analysisResults.filter (·.success) = [] := by simpa using hE
      rw [if_pos hE]
      unfold allMissingTestCases
      rw [hnil]
      rfl
    · rw [if_neg hE]
      exact sortByCriticality_eq _
  · decide

/-! ## C3: partial failure is captured, but `analyzed` still equals `total` -/

/-- C3 counterexample: with A and C succeeding and B's model call throwing,
the aggregation does not raise, captures B as a failure record and includes
A's and C's functionalities — but `fileCount.analyzed` equals
`fileCount.total` (a failed-but-attempted file still counts as analyzed), so
`analyzed < total` is false. -/
theorem claim3_counterexample :
    (analyzeLogicFiles c3Model c3Files).isSuccess = true ∧
    AnalysisResult.failedFile "B.cs" "model down" ∈
      (analyzeLogicFiles c3Model c3Files).getAgg.fileAnalyses ∧
    "FA" ∈ ((analyzeLogicFiles c3Model c3Files).getAgg.functionalityComparison.map (·.functionality)) ∧
    "FC" ∈ ((analyzeLogicFiles c3Model c3Files).getAgg.functionalityComparison.map (·.functionality)) ∧
    (analyzeLogicFiles c3Model c3Files).getAgg.fileCount.total = 3 ∧
    (analyzeLogicFiles c3Model c3Files).getAgg.fileCount.analyzed = 3 ∧
    ¬((analyzeLogicFiles c3Model c3Files).getAgg.fileCount.analyzed <
      (analyzeLogicFiles c3Model c3Files).getAgg.fileCount.total) := by
  decide

/-- C3 amended: if B's model call throws while A's and C's succeed, the
aggregation does not raise, captures B as `{success:false, fileName, error}`,
still includes A's and C's functionalities, and reports
`fileCount.analyzed = fileCount.total` (only exclusion-skipped files reduce
`analyzed`; failed calls still count as analyzed). -/
theorem claim3_amended (model : Model) (A B C : FileRecord) (e : String)
    (pa pc : AnalysisPayload)
    (hA : A.classification = "logic") (hB : B.classification = "logic")
    (hC : C.classification = "logic")
    (hxA : isErrorHandlingFile A.content A.path = false)
    (hxB : isErrorHandlingFile B.content B.path = false)
    (hxC : isErrorHandlingFile C.content C.path = false)
    (hma : model A.content A.path = .ok pa)
    (hmb : model B.content B.path = .error e)
    (hmc : model C.content C.path = .ok pc)
    (he : ¬e = "") :
    ∃ agg : Aggregated, analyzeLogicFiles model [A, B, C] = .success agg ∧
      agg.fileAnalyses = [.okFile A.path pa, .failedFile B.path e, .okFile C.path pc] ∧
      agg.fileCount.total = 3 ∧ agg.fileCount.analyzed = 3 ∧ agg.fileCount.skipped = 0 ∧
      (∀ name ∈ pa.expectedFunctionalities.getD [],
        name ∈ agg.functionalityComparison.map (·.functionality)) ∧
      (∀ name ∈ pc.expectedFunctionalities.getD [],
        name ∈ agg.functionalityComparison.map (·.functionality)) := by
  have hfA : analyzeLogicFile model A.content A.path = .okFile A.path pa := by
    unfold analyzeLogicFile
    rw [if_neg (by simp [hxA]), hma]
  have hfB : analyzeLogicFile model B.content B.path = .failedFile B.path e := by
    unfold analyzeLogicFile
    rw [if_neg (by simp [hxB]), hmb]
    dsimp only
    rw [if_neg he]
  have hfC : analyzeLogicFile model C.content C.path = .okFile C.path pc := by
    unfold analyzeLogicFile
    rw [if_neg (by simp [hxC]), hmc]
  simp [analyzeLogicFiles, hA, hB, hC, hfA, hfB, hfC, AnalysisResult.skipped]
  constructor
  · intro name hname
    have h2 : name ∈ (generateFunctionalityComparison
        [AnalysisResult.okFile A.path pa, AnalysisResult.failedFile B.path e,
         AnalysisResult.okFile C.path pc]).comparisonTable.map (·.functionality) := by
      rw [mem_comparison_keys]
      refine ⟨.okFile A.path pa, ?_, by simpa [AnalysisResult.expectedFunctionalities] using hname⟩
      simp [List.filter_cons, AnalysisResult.success]
    simpa [List.mem_map] using h2
  · intro name hname
    have h2 : name ∈ (generateFunctionalityComparison
        [AnalysisResult.okFile A.path pa, AnalysisResult.failedFile B.path e,
         AnalysisResult.okFile C.path pc]).comparisonTable.map (·.functionality) := by
      rw [mem_comparison_keys]
      refine ⟨.okFile C.path pc, ?_, by simpa [AnalysisResult.expectedFunctionalities] using hname⟩
      simp [List.filter_cons, AnalysisResult.success]
    simpa [List.mem_map] using h2

/-- Witness for the amended C3 with the concrete three-file scenario. -/
theorem claim3_amended_witness :
    (c3A.classification = "logic" ∧ c3B.classification = "logic" ∧
     c3C.classification = "logic" ∧
     isErrorHandlingFile c3A.content c3A.path = false ∧
     isErrorHandlingFile c3B.content c3B.path = false ∧
     isErrorHandlingFile c3C.content c3C.path = false ∧
     c3Model c3A.content c3A.path = .ok c3PayloadA ∧
     c3Model c3B.content c3B.path = .error "model down" ∧
     c3Model c3C.content c3C.path = .ok c3PayloadC ∧
     ¬("model down" : String) = "") ∧
    (∃ agg : Aggregated, analyzeLogicFiles c3Model [c3A, c3B, c3C] = .success agg ∧
      agg.fileAnalyses =
        [.okFile c3A.path c3PayloadA, .failedFile c3B.path "model down",
         .okFile c3C.path c3PayloadC] ∧
      agg.fileCount.total = 3 ∧ agg.fileCount.analyzed = 3 ∧ agg.fileCount.skipped = 0 ∧
      (∀ name ∈ c3PayloadA.expectedFunctionalities.getD [],
        name ∈ agg.functionalityComparison.map (·.functionality)) ∧
      (∀ name ∈ c3PayloadC.expectedFunctionalities.getD [],
        name ∈ agg.functionalityComparison.map (·.functionality))) :=
  ⟨⟨by decide, by decide, by decide, by decide, by decide, by decide, rfl, rfl, rfl, by decide⟩,
   claim3_amended c3Model c3A c3B c3C "model down" c3PayloadA c3PayloadC
     (by decide) (by decide) (by decide) (by decide) (by decide) (by decide)
     rfl rfl rfl (by decide)⟩

/-- Witness for C2: in the single-file table the entry for `FA` is present,
implemented, and implemented in `A.cs`. -/
theorem claim2_comparisonInvariant_witness :
    c2Entry ∈ (generateFunctionalityComparison c2Results).comparisonTable ∧
    ((c2Entry.implemented = true ↔
      ∃ r ∈ c2Results.filter (·.success),
        c2Entry.functionality ∈ r.actualFunctionalities.getD []) ∧
     c2Entry.implementedIn =
       ((c2Results.filter (·.success)).filter
         (fun r => (r.actualFunctionalities.getD []).contains c2Entry.functionality)).map
         (·.fileName)) :=
  ⟨by decide, (claim2_comparisonInvariant c2Results).2.2 c2Entry (by decide)⟩
